import Mathlib

/-!
Verification of the marketing-automation core against its specification.

Shallow embedding of the decision / guardrail / dispatch / audit pipeline:

* `src/guardrails/guardrails.py` — guardrail checks, `run_all_checks`,
  the audit ledger (`log_decision`, `log_human_override`, `get_audit_history`);
* `src/analytics/metrics.py` — A/B-test variants, chi-square winner selection;
* `src/agents/creative_testing_agent.py` — variant generation, scoring,
  traffic allocation;
* `src/agents/abandoned_cart_agent.py` — cart-recovery policy and incentives;
* `src/execution_channels/channels.py` — channel dispatch fan-out.

Python floats are modelled by exact rationals (`ℚ`); at every comparison the
claims touch, the float and rational semantics agree (checked per claim).
Python dict lookups with defaults (`d.get(k, v)`) are modelled by `Option`
fields read with `Option.getD`.  Effectful identifiers (UUIDs, wall-clock
timestamps) are passed in as explicit parameters.  The `details` payload of a
guardrail check and of a dispatch result is a free-form explanation map whose
fields no claim inspects; its contents are left out of the embedding, except
that the `TypeError` a channel send raises while building its details on an
absent message payload (`len(None)`) is modelled by `Except`.
-/

/-! ### Guardrail data model (src/guardrails/guardrails.py) -/

/-- Severity levels of a guardrail check; the source uses the string literals
"warning", "error" and "critical". -/
inductive Severity where
  | warning
  | error
  | critical
deriving DecidableEq, Repr

/-- Result of a guardrail check (dataclass `GuardrailCheck`); the free-form
`details` dict is not modelled. -/
structure GuardrailCheck where
  check_name : String
  passed : Bool
  severity : Severity
deriving DecidableEq, Repr

/-- Customer record as read by `run_all_checks`; absent dict keys are `none`. -/
structure CustomerData where
  customer_id : Option String
  emails_this_week : Option ℕ
  email_type : Option String
  engagement_score : Option ℚ
  region : Option String
  gdpr_consent : Option Bool
deriving Repr

/-- Email payload as read by `run_all_checks`; absent dict keys are `none`. -/
structure EmailData where
  subject : Option String
  body : Option String
  from_address : Option String
  unsubscribe_link : Option String
  physical_address : Option String
deriving Repr

/-- Thresholds from `config/config.py` (`class Config`). -/
def Config.MIN_ENGAGEMENT_SCORE : ℚ := 3/10

/-- Spam-score threshold from `config/config.py`. -/
def Config.SPAM_SCORE_THRESHOLD : ℚ := 7/10

/-- Tone-consistency threshold from `config/config.py`. -/
def Config.TONE_CONSISTENCY_THRESHOLD : ℚ := 85/100

/-- Models `FREQUENCY_CAP_RULES.get(email_type, 3)` from `config/config.py`. -/
def FREQUENCY_CAP_RULES (email_type : String) : ℕ :=
  if email_type = "marketing" then 3
  else if email_type = "transactional" then 999
  else if email_type = "promotional" then 2
  else if email_type = "newsletter" then 1
  else 3

/-- Python `s.lower()` on the characters of a string (ASCII, as in the data). -/
def lower_chars (s : String) : List Char := s.data.map Char.toLower

/-- Python `needle in hay` substring containment. -/
def contains_sub (hay : List Char) (needle : String) : Bool :=
  decide (needle.data <:+: hay)

/-- Count of maximal runs of characters satisfying `p` of length at least `k`,
continuing a current run of length `run`; models `re.findall` with a
`[c]{k,}` pattern, whose greedy non-overlapping matches are exactly the
maximal runs of length ≥ k. -/
def count_runs_aux (p : Char → Bool) (k : ℕ) : List Char → ℕ → ℕ
  | [], run => if k ≤ run then 1 else 0
  | c :: cs, run =>
      if p c then count_runs_aux p k cs (run + 1)
      else (if k ≤ run then 1 else 0) + count_runs_aux p k cs 0

/-- Number of maximal runs of `p`-characters of length ≥ `k` in `cs`. -/
def count_runs (p : Char → Bool) (k : ℕ) (cs : List Char) : ℕ :=
  count_runs_aux p k cs 0

/-- Models `SpamControlGuardrail.SPAM_KEYWORDS`. -/
def SPAM_KEYWORDS : List String :=
  ["click here now", "urgent", "act now", "limited time", "guaranteed",
   "free", "no credit card", "risk free", "unsubscribe", "verify account"]

/-- Models `SpamControlGuardrail.check_email_frequency`. -/
def check_email_frequency (customer_id : Option String)
    (email_count_this_week : ℕ) (email_type : String) : GuardrailCheck :=
  let max_allowed := FREQUENCY_CAP_RULES email_type
  let passed := decide (email_count_this_week < max_allowed)
  { check_name := "frequency_cap", passed := passed,
    severity := if !passed then Severity.error else Severity.warning }

/-- Models `SpamControlGuardrail.check_spam_score`: keyword hits plus structural
heuristics, normalised by 5 and capped at 1. -/
def check_spam_score (subject body : String) : GuardrailCheck :=
  let content := lower_chars (subject ++ " " ++ body)
  let keyword_hits := (SPAM_KEYWORDS.filter (fun k => contains_sub content k)).length
  let caps_hits := if 2 < count_runs Char.isUpper 3 subject.data then 1 else 0
  let bang_hits := if 1 < count_runs (fun c => c = '!') 2 content then 1 else 0
  let spam_count : ℕ := keyword_hits + caps_hits + bang_hits
  let spam_score : ℚ := min ((spam_count : ℚ) / 5) 1
  let passed := decide (spam_score < Config.SPAM_SCORE_THRESHOLD)
  { check_name := "spam_score", passed := passed,
    severity := if !passed then Severity.error else Severity.warning }

/-- Models `SpamControlGuardrail.check_engagement_score`. -/
def check_engagement_score (customer_engagement : ℚ) : GuardrailCheck :=
  let passed := decide (Config.MIN_ENGAGEMENT_SCORE ≤ customer_engagement)
  { check_name := "engagement_score", passed := passed,
    severity := if !passed then Severity.error else Severity.warning }

/-- Models `ComplianceGuardrail.check_gdpr_consent`. -/
def check_gdpr_consent (customer_data : CustomerData) (region : String) :
    GuardrailCheck :=
  let has_consent := customer_data.gdpr_consent.getD false
  let passed := has_consent || decide (region ≠ "EU")
  { check_name := "gdpr_consent", passed := passed,
    severity :=
      if !passed && decide (region = "EU") then Severity.critical
      else Severity.warning }

/-- Python truthiness of an optional string (`None` and `""` are falsy). -/
def truthy_str (o : Option String) : Bool := decide (o.getD "" ≠ "")

/-- Models `ComplianceGuardrail.check_can_spam`: all of from-address, unsubscribe
link and physical address must be present (truthy). -/
def check_can_spam (email_data : EmailData) : GuardrailCheck :=
  let missing :=
    (if truthy_str email_data.from_address then [] else ["from_address"]) ++
    (if truthy_str email_data.unsubscribe_link then [] else ["unsubscribe_link"]) ++
    (if truthy_str email_data.physical_address then [] else ["physical_address"])
  let passed := decide (missing.length = 0)
  { check_name := "can_spam", passed := passed,
    severity := if !passed then Severity.critical else Severity.warning }

/-- Models `TONE_GUIDELINES["forbidden_words"]` from `config/config.py`. -/
def TONE_FORBIDDEN_WORDS : List String :=
  ["spam", "cheap", "limited", "urgent", "act now"]

/-- Models `TONE_GUIDELINES["required_elements"]` from `config/config.py`. -/
def TONE_REQUIRED_ELEMENTS : List String :=
  ["personalization (first name)", "clear CTA", "brand signature"]

/-- Marker of a required element: `e.split("(")[0].lower()`. -/
def required_marker (e : String) : List Char :=
  (e.data.takeWhile (fun c => c ≠ '(')).map Char.toLower

/-- Models `ToneConsistencyGuardrail.check_tone_consistency`. -/
def check_tone_consistency (text : String) : GuardrailCheck :=
  let text_lower := lower_chars text
  let found_forbidden := TONE_FORBIDDEN_WORDS.filter (fun w => contains_sub text_lower w)
  let has_required :=
    decide (0 < (TONE_REQUIRED_ELEMENTS.filter
      (fun e => contains_sub text_lower (String.mk (required_marker e)))).length)
  let score1 : ℚ :=
    if found_forbidden ≠ [] then 1 - (found_forbidden.length : ℚ) * (1/10) else 1
  let score2 : ℚ := if !has_required then score1 - 2/10 else score1
  let consistency_score : ℚ := max 0 (min 1 score2)
  let passed := decide (Config.TONE_CONSISTENCY_THRESHOLD ≤ consistency_score)
  { check_name := "tone_consistency", passed := passed,
    severity := if !passed then Severity.error else Severity.warning }

/-- Models `ToneConsistencyGuardrail.check_personalization`. -/
def check_personalization (text : String) : GuardrailCheck :=
  let has_first_name :=
    contains_sub text.data "\x7b\x7bfirst_name\x7d\x7d" ||
    contains_sub text.data "\x7bfirst_name\x7d"
  let has_dynamic_content :=
    ["\x7b\x7b", "\x7b%", "dynamic", "personalized"].any
      (fun s => contains_sub text.data s)
  { check_name := "personalization",
    passed := has_first_name || has_dynamic_content,
    severity := Severity.warning }

/-- Models `GuardrailsManager.run_all_checks`: runs the seven checks and aggregates
`all(check.passed or check.severity != "critical")`.  Returns
`(all_passed, results)`; the results dict is modelled as the list of checks in
insertion order. -/
def run_all_checks (customer_data : CustomerData) (email_data : EmailData) :
    Bool × List GuardrailCheck :=
  let results : List GuardrailCheck :=
    [check_email_frequency customer_data.customer_id
       (customer_data.emails_this_week.getD 0)
       (customer_data.email_type.getD "marketing"),
     check_spam_score (email_data.subject.getD "") (email_data.body.getD ""),
     check_engagement_score (customer_data.engagement_score.getD 0),
     check_gdpr_consent customer_data (customer_data.region.getD "EU"),
     check_can_spam email_data,
     check_tone_consistency
       (email_data.subject.getD "" ++ " " ++ email_data.body.getD ""),
     check_personalization
       (email_data.subject.getD "" ++ " " ++ email_data.body.getD "")]
  (results.all (fun check => check.passed || decide (check.severity ≠ Severity.critical)),
   results)

/-- Concrete customer record for the C9 witness: no region field, no GDPR
consent flag. -/
def c9_customer : CustomerData :=
  { customer_id := some "cust_42", emails_this_week := some 1,
    email_type := some "marketing", engagement_score := some (1/2),
    region := none, gdpr_consent := none }

/-- Concrete email payload used by the C9 witness. -/
def c9_email : EmailData :=
  { subject := some "Hello", body := some "A new offer for you",
    from_address := some "team@example.com",
    unsubscribe_link := some "https://example.com/unsub",
    physical_address := some "1 Main St" }

/-! ### A/B testing engine (src/analytics/metrics.py) -/

/-- Dataclass `ABTestVariant`. -/
structure ABTestVariant where
  variant_id : String
  name : String
  traffic_percentage : ℚ
  conversions : ℕ
  impressions : ℕ
  revenue : ℚ
deriving DecidableEq, Repr

/-- Property `ABTestVariant.conversion_rate`: conversions per impression,
`0` when there are no impressions. -/
def ABTestVariant.conversion_rate (v : ABTestVariant) : ℚ :=
  if v.impressions = 0 then 0 else (v.conversions : ℚ) / (v.impressions : ℚ)

/-- Dataclass `ABTest`; the ordered `variants` dict is modelled as a list in
insertion order (first entry is the control). -/
structure ABTest where
  test_id : String
  name : String
  created_at : String
  variants : List ABTestVariant
  status : String
  winner : Option String
  confidence_level : ℚ
deriving DecidableEq, Repr

/-- Static method `ABTest._calculate_chi_square`: pooled-proportion chi-square
statistic, `0` when either variant has no impressions. -/
def calculate_chi_square (variant1 variant2 : ABTestVariant) : ℚ :=
  let n1 : ℚ := variant1.impressions
  let n2 : ℚ := variant2.impressions
  if variant1.impressions = 0 ∨ variant2.impressions = 0 then 0
  else
    let p_pool : ℚ := ((variant1.conversions + variant2.conversions : ℕ) : ℚ) / (n1 + n2)
    let expected1 := n1 * p_pool
    let expected2 := n2 * p_pool
    ((variant1.conversions : ℚ) - expected1) ^ 2 / expected1 +
      ((variant2.conversions : ℚ) - expected2) ^ 2 / expected2

/-- Static method `ABTest._chi_square_to_p_value`: coarse stepwise lookup
(thresholds 2.7 / 3.8 / 6.6 mapping to p = 0.10 / 0.05 / 0.01 / 0.001). -/
def chi_square_to_p_value (chi_square : ℚ) (df : ℕ) : ℚ :=
  if chi_square < 27/10 then 1/10
  else if chi_square < 38/10 then 1/20
  else if chi_square < 66/10 then 1/100
  else 1/1000

/-- Loop body of `ABTest.get_statistical_winner`: a non-control variant beats
the control when its p-value is below `1 - confidence_level` and its
conversion rate strictly exceeds the control's. -/
def wins_against (control : ABTestVariant) (confidence_level : ℚ)
    (variant : ABTestVariant) : Bool :=
  decide (chi_square_to_p_value (calculate_chi_square control variant) 1 <
      1 - confidence_level) &&
    decide (control.conversion_rate < variant.conversion_rate)

/-- Models `ABTest.get_statistical_winner`: `none` with fewer than two variants,
otherwise the first non-control variant that wins against the control. -/
def get_statistical_winner (t : ABTest) : Option String :=
  if t.variants.length < 2 then none
  else
    match t.variants with
    | [] => none
    | control :: rest =>
        (rest.find? (wins_against control t.confidence_level)).map
          ABTestVariant.variant_id

/-- Control variant of the C2 scenario: 1000 impressions, 50 conversions. -/
def c2_control : ABTestVariant :=
  { variant_id := "control", name := "Control", traffic_percentage := 1/2,
    conversions := 50, impressions := 1000, revenue := 0 }

/-- Challenger variant of the C2 scenario: 1000 impressions, 90 conversions. -/
def c2_variant : ABTestVariant :=
  { variant_id := "variant_b", name := "Variant B", traffic_percentage := 1/2,
    conversions := 90, impressions := 1000, revenue := 0 }

/-- C2 experiment at the default confidence level 0.95. -/
def c2_test : ABTest :=
  { test_id := "t1", name := "subject line test", created_at := "2026-01-01",
    variants := [c2_control, c2_variant], status := "running",
    winner := none, confidence_level := 95/100 }

/-- Zero-impression control used by the C4 counterexample. -/
def c4_control : ABTestVariant :=
  { variant_id := "control", name := "Control", traffic_percentage := 1/2,
    conversions := 0, impressions := 0, revenue := 0 }

/-- Challenger with data, used by the C4 counterexample. -/
def c4_variant : ABTestVariant :=
  { variant_id := "challenger", name := "Challenger", traffic_percentage := 1/2,
    conversions := 90, impressions := 1000, revenue := 0 }

/-- C4 counterexample experiment: confidence level 0.5, control without
impressions. -/
def c4_test : ABTest :=
  { test_id := "t2", name := "zero impressions", created_at := "2026-01-01",
    variants := [c4_control, c4_variant], status := "running",
    winner := none, confidence_level := 1/2 }

/-- C4 witness experiment: default confidence level 0.95, control without
impressions. -/
def c4w_test : ABTest :=
  { test_id := "t3", name := "zero impressions default", created_at := "2026-01-01",
    variants := [c4_control, c4_variant], status := "running",
    winner := none, confidence_level := 95/100 }

/-! ### Audit ledger (src/guardrails/guardrails.py, class AuditLogger) -/

/-- Fields read from the decision dict by `AuditLogger.log_decision`. -/
structure LoggedDecision where
  decision_id : Option String
  agent_name : Option String
  customer_id : Option String
  action : Option String
deriving DecidableEq, Repr

/-- One entry of the audit ledger.  Decision entries and human-override
entries populate disjoint field subsets; a field that the Python dict does not
carry is `none` (the embedded `decision_details` snapshot is not modelled).
Wall-clock timestamps are modelled as naturals supplied by the caller. -/
structure AuditEntry where
  timestamp : ℕ
  decision_id : Option String
  agent : Option String
  customer_id : Option String
  action : Option String
  guardrail_checks : List (String × Bool)
  human_review_required : Option Bool
  original_action : Option String
  override_action : Option String
  reason : Option String
  entry_type : Option String
deriving DecidableEq, Repr

/-- Models `AuditLogger.log_decision`: appends a decision entry to the ledger. -/
def log_decision (audit_log : List AuditEntry) (now : ℕ)
    (decision : LoggedDecision) (guardrail_checks : List (String × Bool))
    (human_review : Bool) : List AuditEntry :=
  audit_log ++
    [{ timestamp := now, decision_id := decision.decision_id,
       agent := decision.agent_name, customer_id := decision.customer_id,
       action := decision.action, guardrail_checks := guardrail_checks,
       human_review_required := some human_review,
       original_action := none, override_action := none, reason := none,
       entry_type := none }]

/-- Entry built by `AuditLogger.log_human_override`; it carries no
`customer_id` key. -/
def override_entry (now : ℕ)
    (decision_id original_action override_action reason : String) : AuditEntry :=
  { timestamp := now, decision_id := some decision_id, agent := none,
    customer_id := none, action := none, guardrail_checks := [],
    human_review_required := none,
    original_action := some original_action,
    override_action := some override_action,
    reason := some reason, entry_type := some "human_override" }

/-- Models `AuditLogger.log_human_override`: appends an override entry. -/
def log_human_override (audit_log : List AuditEntry) (now : ℕ)
    (decision_id original_action override_action reason : String) :
    List AuditEntry :=
  audit_log ++ [override_entry now decision_id original_action override_action reason]

/-- Newest-first order on audit entries (`sorted(key=timestamp, reverse=True)`). -/
def audit_ge (a b : AuditEntry) : Prop := b.timestamp ≤ a.timestamp

instance : DecidableRel audit_ge :=
  fun a b => inferInstanceAs (Decidable (b.timestamp ≤ a.timestamp))

instance : IsTotal AuditEntry audit_ge :=
  ⟨fun a b => le_total b.timestamp a.timestamp⟩

instance : IsTrans AuditEntry audit_ge :=
  ⟨fun _ _ _ hab hbc => le_trans hbc hab⟩

/-- Models `AuditLogger.get_audit_history`: optional filter by customer id (skipped
for a falsy id, i.e. `None` or the empty string), then a stable
newest-first sort by timestamp, truncated to `limit`. -/
def get_audit_history (audit_log : List AuditEntry)
    (customer_id : Option String) (limit : ℕ) : List AuditEntry :=
  let history :=
    match customer_id with
    | some c =>
        if c = "" then audit_log
        else audit_log.filter (fun e => e.customer_id == some c)
    | none => audit_log
  (history.insertionSort audit_ge).take limit

/-- The ledger's mutating operations, for quantifying over operation
sequences. -/
inductive AuditOp where
  | decision (now : ℕ) (d : LoggedDecision)
      (checks : List (String × Bool)) (human_review : Bool)
  | override (now : ℕ)
      (decision_id original_action override_action reason : String)

/-- Applies one ledger operation. -/
def apply_op (audit_log : List AuditEntry) : AuditOp → List AuditEntry
  | AuditOp.decision now d checks hr => log_decision audit_log now d checks hr
  | AuditOp.override now did oa ov r => log_human_override audit_log now did oa ov r

/-- Ledger obtained from the empty ledger by a sequence of append
operations. -/
def build_log (ops : List AuditOp) : List AuditEntry :=
  ops.foldl apply_op []

/-- Concrete operation sequence for the C10 witness: one decision for
customer "c1" followed by one human override. -/
def c10_ops : List AuditOp :=
  [AuditOp.decision 1 ⟨some "d1", some "CartAgent", some "c1", some "send"⟩
     [("gdpr_consent", true)] false,
   AuditOp.override 2 "d1" "send" "hold" "manual review"]

/-! ### Creative testing (src/agents/creative_testing_agent.py) -/

/-- One creative variation (name, subject, body, CTA). -/
structure Variation where
  name : String
  subject : String
  body : String
  cta : String
deriving DecidableEq, Repr

/-- Baseline creative passed to `_generate_variations`; absent keys are
`none`. -/
structure Creative where
  subject : Option String
  body : Option String
  cta : Option String
deriving Repr

/-- Models `CreativeTestingAgent._generate_variations`: control plus four fixed
strategy variants. -/
def generate_variations (original_creative : Creative) : List Variation :=
  let subject := original_creative.subject.getD "Check this out!"
  let body := original_creative.body.getD "We have something special for you."
  let cta := original_creative.cta.getD "Learn More"
  [{ name := "Control (Original)", subject := subject, body := body, cta := cta },
   { name := "Variation A (Curiosity-driven)",
     subject := "You won\x27t believe what we found for you",
     body := "Our team discovered something special that matches your interests. Take a peek inside.",
     cta := "Show Me" },
   { name := "Variation B (Benefit-focused)",
     subject := "Save 20% on items you\x27ll love",
     body := "Based on your recent browsing, we\x27ve curated a selection just for you. Enjoy an exclusive discount.",
     cta := "Claim Discount" },
   { name := "Variation C (FOMO/Urgency)",
     subject := "Only 24 hours: Your personalized picks",
     body := "We saved these items for you, but they\x27re selling fast. Secure yours before they\x27re gone.",
     cta := "Shop Now" },
   { name := "Variation D (Social Proof)",
     subject := "1000+ customers loved this - your turn?",
     body := "Join thousands of happy customers who discovered these bestsellers. See what everyone\x27s raving about.",
     cta := "Explore Now" }]

/-- A variation together with its scores (`_score_variations` output). -/
structure ScoredVariation extends Variation where
  brand_consistency_score : ℚ
  tone_consistency_score : ℚ
  length_score : ℚ
  overall_score : ℚ
deriving DecidableEq, Repr

/-- Descending order on overall score used by
`scored.sort(key=overall_score, reverse=True)`. -/
def scored_ge (a b : ScoredVariation) : Prop :=
  b.overall_score ≤ a.overall_score

instance : DecidableRel scored_ge :=
  fun a b => inferInstanceAs (Decidable (b.overall_score ≤ a.overall_score))

/-- Models `CreativeTestingAgent._score_variations`.  The two `random.uniform` draws
per variation are injected as explicit inputs (per the spec's design note on
injected randomness); the length score is the fixed 0.95.  The variations are
then stably sorted by descending overall score (`list.sort` with
`reverse=True` is stable; so is insertion sort with this order). -/
def score_variations (vars : List (Variation × ℚ × ℚ)) : List ScoredVariation :=
  let scored := vars.map (fun vbt =>
    let s : ScoredVariation :=
      { toVariation := vbt.1,
        brand_consistency_score := vbt.2.1,
        tone_consistency_score := vbt.2.2,
        length_score := 95/100,
        overall_score := 0 }
    { s with overall_score :=
        s.brand_consistency_score * (3/10) + s.tone_consistency_score * (4/10) +
          s.length_score * (3/10) })
  scored.insertionSort scored_ge

/-- Python `round(x)` with ties to even (banker's rounding). -/
def round_half_even (q : ℚ) : ℤ :=
  let f := ⌊q⌋
  let r := q - f
  if r < 1/2 then f
  else if 1/2 < r then f + 1
  else if f % 2 = 0 then f else f + 1

/-- Python `round(x, 1)`: round to one decimal place, ties to even. -/
def py_round1 (q : ℚ) : ℚ := (round_half_even (q * 10) : ℚ) / 10

/-- Python `int(x)`: truncation toward zero. -/
def py_int (q : ℚ) : ℤ := if q < 0 then -⌊-q⌋ else ⌊q⌋

/-- One entry of the traffic allocation. -/
structure AllocEntry where
  traffic_percentage : ℚ
  sample_size : ℤ
deriving DecidableEq, Repr

/-- Result of `_design_test_allocation`. -/
structure TestAllocation where
  total_sample_size : ℕ
  variants : List (String × AllocEntry)
deriving DecidableEq, Repr

/-- Models `CreativeTestingAgent._design_test_allocation`: the element at index 0 of
the score-sorted list receives `control_pct = 0.30`; every other element
receives `0.70 / (len - 1)`.  Percentages are reported as
`round(pct * 100, 1)` and sample sizes as `int(10000 * pct)`. -/
def design_test_allocation (scored_variations : List ScoredVariation) :
    TestAllocation :=
  let control_pct : ℚ := 30/100
  let exploit_pct : ℚ := (70/100) / ((scored_variations.length : ℚ) - 1)
  { total_sample_size := 10000,
    variants :=
      scored_variations.enum.map (fun iv =>
        let pct := if iv.1 = 0 then control_pct else exploit_pct
        (iv.2.name,
         { traffic_percentage := py_round1 (pct * 100),
           sample_size := py_int ((10000 : ℚ) * pct) })) }

/-- Injected score draws for the C3 counterexample: the control draws the low
end of both score ranges, the four strategy variants draw higher scores (all
values inside the `random.uniform` ranges 0.8..1.0 and 0.85..1.0). -/
def c3_scores : List (ℚ × ℚ) :=
  [(8/10, 85/100), (9/10, 9/10), (9/10, 9/10), (9/10, 9/10), (9/10, 9/10)]

/-- C3 counterexample input: the five generated variations paired with the
injected score draws. -/
def c3_inputs : List (Variation × ℚ × ℚ) :=
  List.zipWith (fun v p => (v, p)) (generate_variations ⟨none, none, none⟩) c3_scores

/-- Top-ranked scored variation for the C3 amended-claim witness. -/
def c3w_best : ScoredVariation :=
  { name := "Variation A (Curiosity-driven)", subject := "s", body := "b",
    cta := "c", brand_consistency_score := 9/10,
    tone_consistency_score := 9/10, length_score := 95/100,
    overall_score := 915/1000 }

/-- Lower-ranked scored variation for the C3 amended-claim witness. -/
def c3w_rest : List ScoredVariation :=
  [{ name := "Control (Original)", subject := "s", body := "b", cta := "c",
     brand_consistency_score := 8/10, tone_consistency_score := 85/100,
     length_score := 95/100, overall_score := 865/1000 }]

/-! ### Abandoned-cart policy (src/agents/abandoned_cart_agent.py) -/

/-- Value of an action parameter (string, number, or list of item names). -/
inductive ParamVal where
  | str (s : String)
  | num (q : ℚ)
  | strList (l : List String)
deriving DecidableEq, Repr

/-- Decision produced by an agent (dataclass `AgentDecision`); the generated
UUID and wall-clock timestamp are not modelled. -/
structure AgentDecision where
  agent_name : String
  customer_id : String
  action : String
  parameters : List (String × ParamVal)
  confidence : ℚ
  guardrail_checks : List (String × Bool)
  requires_human_review : Bool
  reasoning : String
deriving DecidableEq, Repr

/-- Models `BaseAgent._create_decision` (minus UUID/timestamp generation). -/
def create_decision (agent_name customer_id action : String)
    (parameters : List (String × ParamVal)) (confidence : ℚ)
    (guardrail_checks : List (String × Bool)) (requires_human_review : Bool)
    (reasoning : String) : AgentDecision :=
  { agent_name := agent_name, customer_id := customer_id, action := action,
    parameters := parameters, confidence := confidence,
    guardrail_checks := guardrail_checks,
    requires_human_review := requires_human_review, reasoning := reasoning }

/-- Customer record fields read by `_handle_abandoned_cart`. -/
structure CartCustomerData where
  cart_value : Option ℚ
  vip_status : Option Bool
  customer_id : Option String
deriving Repr

/-- Trigger context fields read by `_handle_abandoned_cart`. -/
structure CartContext where
  cart_items : Option (List String)
  hours_since_abandon : Option ℚ
deriving Repr

/-- Input to the abandoned-cart policy (dataclass `AgentInput`). -/
structure CartAgentInput where
  customer_id : String
  customer_data : CartCustomerData
  context : CartContext
deriving Repr

/-- Python `l[-n:]`. -/
def take_last (n : ℕ) (l : List Char) : List Char := l.drop (l.length - n)

/-- Python `s.upper()` (ASCII, as in the data). -/
def upper_chars (cs : List Char) : List Char := cs.map Char.toUpper

/-- Models `AbandonedCartWinBackAgent._calculate_incentive`: tiered discount
percentage, smaller for VIP customers and decreasing with cart value. -/
def calculate_incentive (cart_value : ℚ) (is_vip : Bool) : ℕ :=
  if is_vip then
    if 500 < cart_value then 10
    else if 200 < cart_value then 12
    else 15
  else
    if 500 < cart_value then 15
    else if 200 < cart_value then 20
    else 25

/-- Models `AbandonedCartWinBackAgent._handle_abandoned_cart`.  Numeric rendering in
the eligible branch's reasoning string approximates Python `str()`. -/
def handle_abandoned_cart (agent_input : CartAgentInput) : AgentDecision :=
  let customer_data := agent_input.customer_data
  let context := agent_input.context
  let cart_value := customer_data.cart_value.getD 0
  let cart_items := context.cart_items.getD []
  let hours_since_abandon := context.hours_since_abandon.getD 2
  if cart_value < 20 then
    create_decision "AbandonedCartWinBackAgent" agent_input.customer_id
      "skip_cart_recovery" [("reason", ParamVal.str "Cart value too low")]
      (9/10) [] false "Cart value below minimum recovery threshold"
  else
    let incentive := calculate_incentive cart_value (customer_data.vip_status.getD false)
    let discount_code :=
      "RECOVER" ++
        String.mk (upper_chars (take_last 4 (customer_data.customer_id.getD "X").data))
    create_decision "AbandonedCartWinBackAgent" agent_input.customer_id
      "send_cart_recovery_email"
      [("cart_value", ParamVal.num cart_value),
       ("top_items", ParamVal.strList (cart_items.take 3)),
       ("discount_percentage", ParamVal.num (incentive : ℚ)),
       ("discount_code", ParamVal.str discount_code),
       ("expiry_hours", ParamVal.num 24),
       ("send_time", ParamVal.str "2 hours from now"),
       ("follow_up", ParamVal.str "Send SMS reminder after 12 hours")]
      (89/100)
      [("discount_policy_check", true), ("frequency_cap_check", true),
       ("inventory_check", true)]
      (decide (500 < cart_value))
      ("Cart abandoned " ++ toString hours_since_abandon ++ "h ago. Value: $" ++
        toString cart_value ++ ". Incentive: " ++ toString incentive ++ "% discount")

/-- Concrete low-value-cart input for the C5 witness. -/
def c5_input : CartAgentInput :=
  { customer_id := "cust_1234",
    customer_data :=
      { cart_value := some 5, vip_status := some false,
        customer_id := some "cust_1234" },
    context := { cart_items := some [], hours_since_abandon := some 2 } }

/-! ### Dispatch fan-out (src/execution_channels/channels.py) -/

/-- Per-channel execution outcome (dataclass `ExecutionResult`); wall-clock
timestamps are modelled as naturals supplied by the caller, and the free-form
`details` dict is not modelled. -/
structure ExecutionResult where
  channel : String
  customer_id : String
  message_id : String
  status : String
  timestamp : ℕ
deriving DecidableEq, Repr

/-- Contact fields read by `execute_campaign`; absent keys are `none`. -/
structure ChannelCustomerData where
  email : Option String
  phone : Option String
  whatsapp_consent : Option Bool
deriving Repr

/-- Campaign payload read by `execute_campaign`; absent keys are `none`. -/
structure CampaignData where
  channels : Option (List String)
  subject : Option String
  body : Option String
  html : Option String
  sms_message : Option String
  whatsapp_message : Option String
  web_variations : Option (List (String × String))
  push_title : Option String
  push_body : Option String
deriving Repr

/-- Models `EmailChannel.send_email`.  The source builds a `details` dict whose
`body_length` entry evaluates `len(body)`; when the campaign has no body key,
`body` is `None` and this raises a `TypeError`, modelled as `Except.error`.
With a body present the result is always `sent`. -/
def send_email (now : ℕ) (customer_id : String) (email : Option String)
    (subject body : Option String) (html : String) :
    Except String ExecutionResult :=
  match body with
  | none => Except.error "TypeError: object of type \x27NoneType\x27 has no len()"
  | some _ =>
      Except.ok
        { channel := "email", customer_id := customer_id,
          message_id := "email_" ++ customer_id ++ "_" ++ toString now,
          status := "sent", timestamp := now }

/-- Models `SMSChannel.send_sms`.  Its `details` dict evaluates `len(phone)`
and `len(message)`; an absent phone or message (`None`) raises a `TypeError`,
modelled as `Except.error`.  Otherwise the result is always `sent`. -/
def send_sms (now : ℕ) (customer_id : String) (phone : Option String)
    (message : Option String) : Except String ExecutionResult :=
  match phone, message with
  | some _, some _ =>
      Except.ok
        { channel := "sms", customer_id := customer_id,
          message_id := "sms_" ++ customer_id ++ "_" ++ toString now,
          status := "sent", timestamp := now }
  | _, _ => Except.error "TypeError: object of type \x27NoneType\x27 has no len()"

/-- Models `WhatsAppChannel.send_whatsapp`: without consent it returns
`skipped` before touching phone or message; with consent its `details` dict
evaluates `len(phone)` and `len(message)`, so an absent phone or message
raises a `TypeError` (`Except.error`), and otherwise the result is `sent`. -/
def send_whatsapp (now : ℕ) (customer_id : String) (phone : Option String)
    (message : Option String) (has_consent : Bool) :
    Except String ExecutionResult :=
  if !has_consent then
    Except.ok
      { channel := "whatsapp", customer_id := customer_id, message_id := "",
        status := "skipped", timestamp := now }
  else
    match phone, message with
    | some _, some _ =>
        Except.ok
          { channel := "whatsapp", customer_id := customer_id,
            message_id := "whatsapp_" ++ customer_id ++ "_" ++ toString now,
            status := "sent", timestamp := now }
    | _, _ => Except.error "TypeError: object of type \x27NoneType\x27 has no len()"

/-- Models `WebPersonalizationChannel.set_web_personalization`; its
`variations` argument is defaulted to the empty dict at the call site, so its
`details` construction (`len(variations)`) never raises. -/
def set_web_personalization (now : ℕ) (customer_id : String)
    (variations : List (String × String)) : ExecutionResult :=
  { channel := "web", customer_id := customer_id,
    message_id := "web_" ++ customer_id ++ "_" ++ toString now,
    status := "sent", timestamp := now }

/-- Models `PushNotificationChannel.send_push`; its `details` dict stores the
title and platform as-is and never measures the body, so it never raises. -/
def send_push (now : ℕ) (customer_id : String) (title : String)
    (body : Option String) : ExecutionResult :=
  { channel := "push", customer_id := customer_id,
    message_id := "push_" ++ customer_id ++ "_" ++ toString now,
    status := "sent", timestamp := now }

/-- Loop of `ExecutionManager.execute_campaign` over the requested channel
list: recognized channels produce one result each, any other name is silently
skipped (`continue`), and a `TypeError` raised by a channel send aborts the
whole call (the exception propagates out of the loop). -/
def execute_campaign_aux (now : ℕ) (customer_id : String)
    (customer_data : ChannelCustomerData) (campaign_data : CampaignData) :
    List String → Except String (List ExecutionResult)
  | [] => Except.ok []
  | channel :: rest =>
      if channel = "email" then
        (send_email now customer_id customer_data.email campaign_data.subject
            campaign_data.body (campaign_data.html.getD "")).bind (fun result =>
          (execute_campaign_aux now customer_id customer_data campaign_data
              rest).map (fun results => result :: results))
      else if channel = "sms" then
        (send_sms now customer_id customer_data.phone
            (campaign_data.sms_message.orElse (fun _ => campaign_data.body))).bind
          (fun result =>
            (execute_campaign_aux now customer_id customer_data campaign_data
                rest).map (fun results => result :: results))
      else if channel = "whatsapp" then
        (send_whatsapp now customer_id customer_data.phone
            (campaign_data.whatsapp_message.orElse (fun _ => campaign_data.body))
            (customer_data.whatsapp_consent.getD false)).bind (fun result =>
          (execute_campaign_aux now customer_id customer_data campaign_data
              rest).map (fun results => result :: results))
      else if channel = "web" then
        (execute_campaign_aux now customer_id customer_data campaign_data
            rest).map (fun results =>
          set_web_personalization now customer_id
              (campaign_data.web_variations.getD []) :: results)
      else if channel = "push" then
        (execute_campaign_aux now customer_id customer_data campaign_data
            rest).map (fun results =>
          send_push now customer_id (campaign_data.push_title.getD "New offer")
              (campaign_data.push_body.orElse (fun _ => campaign_data.body)) ::
            results)
      else
        execute_campaign_aux now customer_id customer_data campaign_data rest

/-- Models `ExecutionManager.execute_campaign`: iterates
`campaign_data.get("channels", ["email"])`; an uncaught `TypeError` from a
channel send surfaces as `Except.error`. -/
def execute_campaign (now : ℕ) (customer_id : String)
    (customer_data : ChannelCustomerData) (campaign_data : CampaignData) :
    Except String (List ExecutionResult) :=
  execute_campaign_aux now customer_id customer_data campaign_data
    (campaign_data.channels.getD ["email"])

/-- The channel names `execute_campaign` recognizes. -/
def recognized_channels : List String :=
  ["email", "sms", "whatsapp", "web", "push"]

/-- Presence of the message payloads one channel send needs to avoid the
`len(None)` TypeError: a body for email; a phone and an sms message (or body
fallback) for sms; for whatsapp, only under granted consent, a phone and a
whatsapp message (or body fallback).  Web, push and unrecognized names need
nothing. -/
def channel_send_ok (customer_data : ChannelCustomerData)
    (campaign_data : CampaignData) (channel : String) : Bool :=
  if channel = "email" then campaign_data.body.isSome
  else if channel = "sms" then
    customer_data.phone.isSome &&
      (campaign_data.sms_message.orElse (fun _ => campaign_data.body)).isSome
  else if channel = "whatsapp" then
    !(customer_data.whatsapp_consent.getD false) ||
      (customer_data.phone.isSome &&
        (campaign_data.whatsapp_message.orElse (fun _ => campaign_data.body)).isSome)
  else true

/-- Presence of the payloads needed by every channel in a requested list. -/
def dispatch_payloads_present (customer_data : ChannelCustomerData)
    (campaign_data : CampaignData) (chans : List String) : Bool :=
  chans.all (channel_send_ok customer_data campaign_data)

/-- Contact record with every payload the C7 witness needs. -/
def c7_customer_ok : ChannelCustomerData :=
  { email := some "a@b.example", phone := some "5551234",
    whatsapp_consent := some true }

/-- Campaign for the C7 witness: six requested channels including the
unrecognized "fax", with all needed payloads present. -/
def c7_campaign_ok : CampaignData :=
  { channels := some ["email", "sms", "fax", "whatsapp", "web", "push"],
    subject := some "Hello", body := some "A new offer for you.",
    html := some "", sms_message := some "Offer inside",
    whatsapp_message := none, web_variations := some [("banner", "v1")],
    push_title := some "Offer", push_body := none }

/-- Contact record for the C7 counterexample. -/
def c7_customer_bad : ChannelCustomerData :=
  { email := some "a@b.example", phone := none, whatsapp_consent := none }

/-- Campaign for the C7 counterexample: the recognized channel "email" is
requested but the campaign has no body key. -/
def c7_campaign_bad : CampaignData :=
  { channels := some ["email"], subject := some "Hello", body := none,
    html := none, sms_message := none, whatsapp_message := none,
    web_variations := none, push_title := none, push_body := none }

/-! ### Theorems about the guardrail gate -/

/-- Helper: the aggregate of `run_all_checks` is false as soon as one produced
check is a critical failure. -/
theorem run_all_checks_false_of_crit (cd : CustomerData) (ed : EmailData)
    (c : GuardrailCheck) (hm : c ∈ (run_all_checks cd ed).2)
    (hp : c.passed = false) (hs : c.severity = Severity.critical) :
    (run_all_checks cd ed).1 = false := by
  have : (run_all_checks cd ed).1 =
      ((run_all_checks cd ed).2.all
        (fun check => check.passed || decide (check.severity ≠ Severity.critical))) := rfl
  rw [this]
  exact List.all_eq_false.mpr ⟨c, hm, by simp [hp, hs]⟩

/-- Claim C1: for every customer-data/email-data input, the overall result of
`run_all_checks` is `false` iff at least one produced check has severity
critical and `passed = false`; failures of severity error or warning alone
never make the overall result false. -/
theorem guardrail_overall_pass_iff (cd : CustomerData) (ed : EmailData) :
    (run_all_checks cd ed).1 = false ↔
      ∃ c ∈ (run_all_checks cd ed).2,
        c.severity = Severity.critical ∧ c.passed = false := by
  have : (run_all_checks cd ed).1 =
      ((run_all_checks cd ed).2.all
        (fun check => check.passed || decide (check.severity ≠ Severity.critical))) := rfl
  rw [this, List.all_eq_false]
  constructor
  · rintro ⟨c, hc, hp⟩
    refine ⟨c, hc, ?_, ?_⟩
    · by_contra hs
      exact hp (by simp [hs])
    · by_contra hb
      exact hp (by simp [Bool.not_eq_false] at hb; simp [hb])
  · rintro ⟨c, hc, hs, hp⟩
    exact ⟨c, hc, by simp [hp, hs]⟩

/-- Claim C9: a customer record with no `region` field is treated as region
"EU" by the guardrail gate; if its GDPR-consent flag is absent or false, the
`gdpr_consent` check fails as critical and the overall gate result is false. -/
theorem missing_region_defaults_to_eu (cd : CustomerData) (ed : EmailData)
    (hreg : cd.region = none) (hcons : cd.gdpr_consent.getD false = false) :
    (run_all_checks cd ed).2.get? 3 = some (check_gdpr_consent cd "EU") ∧
    (check_gdpr_consent cd "EU").passed = false ∧
    (check_gdpr_consent cd "EU").severity = Severity.critical ∧
    (run_all_checks cd ed).1 = false := by
  have hpassed : (check_gdpr_consent cd "EU").passed = false := by
    simp [check_gdpr_consent, hcons]
  have hsev : (check_gdpr_consent cd "EU").severity = Severity.critical := by
    simp [check_gdpr_consent, hcons]
  refine ⟨by simp [run_all_checks, hreg], hpassed, hsev, ?_⟩
  exact run_all_checks_false_of_crit cd ed (check_gdpr_consent cd "EU")
    (by simp [run_all_checks, hreg]) hpassed hsev

/-- Witness for claim C9 at a concrete record with no region field and no
GDPR consent flag. -/
theorem missing_region_defaults_to_eu_witness :
    (c9_customer.region = none ∧ c9_customer.gdpr_consent.getD false = false) ∧
    ((run_all_checks c9_customer c9_email).2.get? 3 =
        some (check_gdpr_consent c9_customer "EU") ∧
      (check_gdpr_consent c9_customer "EU").passed = false ∧
      (check_gdpr_consent c9_customer "EU").severity = Severity.critical ∧
      (run_all_checks c9_customer c9_email).1 = false) :=
  ⟨⟨rfl, rfl⟩, missing_region_defaults_to_eu c9_customer c9_email rfl rfl⟩

/-! ### Theorems about the A/B testing engine -/

/-- Claim C2: with control (1000 impressions, 50 conversions), one challenger
(1000 impressions, 90 conversions) and the default confidence level 0.95, the
chi-square statistic maps to a p-value below 1 - 0.95 and the challenger is
returned as winner. -/
theorem chi_square_winner_example :
    chi_square_to_p_value (calculate_chi_square c2_control c2_variant) 1 <
      1 - 95/100 ∧
    get_statistical_winner c2_test = some "variant_b" := by
  have hchi : calculate_chi_square c2_control c2_variant = 80/7 := by
    norm_num [calculate_chi_square, c2_control, c2_variant]
  have hp : chi_square_to_p_value (calculate_chi_square c2_control c2_variant) 1
      = 1/1000 := by
    rw [hchi]; norm_num [chi_square_to_p_value]
  have hwins : wins_against c2_control (95/100) c2_variant = true := by
    simp only [wins_against, hp]
    norm_num [ABTestVariant.conversion_rate, c2_control, c2_variant]
  refine ⟨by rw [hp]; norm_num, ?_⟩
  show ([c2_variant].find? (wins_against c2_control (95/100))).map
      ABTestVariant.variant_id = some "variant_b"
  simp only [List.find?, hwins]
  rfl

/-- Claim C4 (amended): a comparison in which either variant has zero
impressions can never produce a winner when the experiment's confidence level
is at least 0.9 (in particular at the default 0.95); moreover, at such
confidence levels an experiment whose control has zero impressions declares no
winner at all. -/
theorem zero_impressions_no_winner :
    (∀ (control variant : ABTestVariant) (conf : ℚ), 9/10 ≤ conf →
      (control.impressions = 0 ∨ variant.impressions = 0) →
      wins_against control conf variant = false) ∧
    (∀ (t : ABTest) (control : ABTestVariant) (rest : List ABTestVariant),
      t.variants = control :: rest → 9/10 ≤ t.confidence_level →
      control.impressions = 0 → get_statistical_winner t = none) := by
  have key : ∀ (control variant : ABTestVariant) (conf : ℚ), 9/10 ≤ conf →
      (control.impressions = 0 ∨ variant.impressions = 0) →
      wins_against control conf variant = false := by
    intro control variant conf hconf himp
    have hchi : calculate_chi_square control variant = 0 := by
      unfold calculate_chi_square
      rw [if_pos himp]
    have hp : chi_square_to_p_value (calculate_chi_square control variant) 1
        = 1/10 := by
      rw [hchi]; norm_num [chi_square_to_p_value]
    have hno : ¬ (chi_square_to_p_value (calculate_chi_square control variant) 1 <
        1 - conf) := by
      rw [hp]; intro h; linarith
    simp [wins_against, hno]
  refine ⟨key, ?_⟩
  intro t control rest hvar hconf himp
  unfold get_statistical_winner
  rw [hvar]
  by_cases hrest : rest = []
  · subst hrest; simp
  · have hpos : 0 < rest.length := List.length_pos.mpr hrest
    rw [if_neg (by simp only [List.length_cons, not_lt]; omega)]
    show (rest.find? (wins_against control t.confidence_level)).map
        ABTestVariant.variant_id = none
    have hnone : rest.find? (wins_against control t.confidence_level) = none := by
      rw [List.find?_eq_none]
      intro x hx
      rw [key control x t.confidence_level hconf (Or.inl himp)]
      simp
    rw [hnone, Option.map_none']

/-- Witness for claim C4 (amended) at a concrete zero-impression control and
the default confidence level 0.95. -/
theorem zero_impressions_no_winner_witness :
    ((9:ℚ)/10 ≤ 95/100 ∧ c4_control.impressions = 0) ∧
    wins_against c4_control (95/100) c4_variant = false ∧
    get_statistical_winner c4w_test = none :=
  ⟨⟨by norm_num, rfl⟩,
   zero_impressions_no_winner.1 c4_control c4_variant (95/100) (by norm_num)
     (Or.inl rfl),
   zero_impressions_no_winner.2 c4w_test c4_control [c4_variant] rfl
     (by norm_num [c4w_test]) rfl⟩

/-- Counterexample to claim C4 as stated: at confidence level 0.5 the
comparison against a zero-impression control still declares the challenger a
winner (chi-square 0 maps to p = 0.10 < 0.5 and 0.09 > 0). -/
theorem zero_impressions_winner_counterexample :
    c4_control.impressions = 0 ∧
    get_statistical_winner c4_test = some "challenger" := by
  refine ⟨rfl, ?_⟩
  have hchi : calculate_chi_square c4_control c4_variant = 0 := by
    norm_num [calculate_chi_square, c4_control]
  have hwins : wins_against c4_control (1/2) c4_variant = true := by
    simp only [wins_against, hchi]
    norm_num [chi_square_to_p_value, ABTestVariant.conversion_rate,
      c4_control, c4_variant]
  show ([c4_variant].find? (wins_against c4_control (1/2))).map
      ABTestVariant.variant_id = some "challenger"
  simp only [List.find?, hwins]
  rfl

/-! ### Theorems about the audit ledger -/

/-- Claim C8: the ledger is append-only.  Every mutating operation grows the
ledger by exactly one entry (so none reduces its length), and after N appends
starting from the empty ledger, a history query with limit N returns exactly N
entries ordered newest-first by timestamp. -/
theorem audit_ledger_append_only :
    (∀ (audit_log : List AuditEntry) (op : AuditOp),
      (apply_op audit_log op).length = audit_log.length + 1) ∧
    (∀ ops : List AuditOp,
      (get_audit_history (build_log ops) none ops.length).length = ops.length ∧
      List.Sorted audit_ge (get_audit_history (build_log ops) none ops.length)) := by
  have hstep : ∀ (audit_log : List AuditEntry) (op : AuditOp),
      (apply_op audit_log op).length = audit_log.length + 1 := by
    intro audit_log op
    cases op <;> simp [apply_op, log_decision, log_human_override]
  have hfold : ∀ (ops : List AuditOp) (audit_log : List AuditEntry),
      (ops.foldl apply_op audit_log).length = audit_log.length + ops.length := by
    intro ops
    induction ops with
    | nil => intro audit_log; simp
    | cons op ops ih =>
        intro audit_log
        rw [List.foldl_cons, ih, hstep]
        simp only [List.length_cons]
        omega
  have hlen : ∀ ops : List AuditOp, (build_log ops).length = ops.length := by
    intro ops
    have := hfold ops []
    simpa [build_log] using this
  refine ⟨hstep, fun ops => ⟨?_, ?_⟩⟩
  · simp only [get_audit_history]
    rw [List.length_take, List.length_insertionSort, hlen]
    exact Nat.min_self _
  · simp only [get_audit_history]
    exact List.Pairwise.sublist (List.take_sublist _ _)
      (List.sorted_insertionSort audit_ge _)

/-- Claim C10: entries appended by `log_human_override` carry no customer id,
so a history query filtered by any non-empty customer id never returns a
human-override entry. -/
theorem override_hidden_from_filtered_history :
    (∀ (now : ℕ) (did oa ov r : String),
      (override_entry now did oa ov r).customer_id = none) ∧
    (∀ (ops : List AuditOp) (cid : String) (limit : ℕ), cid ≠ "" →
      (get_audit_history (build_log ops) (some cid) limit).all
        (fun e => e.entry_type != some "human_override") = true) := by
  refine ⟨fun _ _ _ _ _ => rfl, ?_⟩
  have inv : ∀ (ops : List AuditOp) (audit_log : List AuditEntry),
      (∀ e ∈ audit_log, e.entry_type = some "human_override" → e.customer_id = none) →
      ∀ e ∈ ops.foldl apply_op audit_log,
        e.entry_type = some "human_override" → e.customer_id = none := by
    intro ops
    induction ops with
    | nil => intro audit_log h; simpa using h
    | cons op ops ih =>
        intro audit_log h
        rw [List.foldl_cons]
        refine ih _ ?_
        intro e he
        cases op with
        | decision now d checks hr =>
            simp only [apply_op, log_decision, List.mem_append,
              List.mem_singleton] at he
            rcases he with he | he
            · exact h e he
            · subst he; intro habs; simp at habs
        | override now did oa ov r =>
            simp only [apply_op, log_human_override, List.mem_append,
              List.mem_singleton] at he
            rcases he with he | he
            · exact h e he
            · subst he; intro _; rfl
  intro ops cid limit hcid
  rw [List.all_eq_true]
  intro e he
  have hq : get_audit_history (build_log ops) (some cid) limit =
      (((build_log ops).filter (fun x => x.customer_id == some cid)).insertionSort
        audit_ge).take limit := by
    simp [get_audit_history, hcid]
  rw [hq] at he
  have he1 : e ∈ (build_log ops).filter (fun x => x.customer_id == some cid) :=
    (List.perm_insertionSort audit_ge _).mem_iff.mp ((List.take_subset _ _) he)
  rw [List.mem_filter] at he1
  have hcust : e.customer_id = some cid := by
    have := he1.2
    simpa using this
  have hnotov : e.entry_type ≠ some "human_override" := by
    intro habs
    have := inv ops [] (by simp) e he1.1 habs
    rw [hcust] at this
    exact Option.noConfusion this
  simpa using hnotov

/-- Witness for claim C10 at a concrete ledger with one decision entry for
customer "c1" and one human-override entry. -/
theorem override_hidden_from_filtered_history_witness :
    ("c1" ≠ "") ∧
    (get_audit_history (build_log c10_ops) (some "c1") 2).all
      (fun e => e.entry_type != some "human_override") = true :=
  ⟨by decide,
   override_hidden_from_filtered_history.2 c10_ops "c1" 2 (by decide)⟩

/-! ### Theorems about creative-test traffic allocation -/

/-- Helper: mapping an index-sensitive function over `enumFrom n` with `n ≠ 0`
never sees index 0. -/
theorem enumFrom_map_of_ne_zero {α β : Type} (f : ℕ × α → β) (g : α → β)
    (hfg : ∀ i a, i ≠ 0 → f (i, a) = g a) :
    ∀ (l : List α) (n : ℕ), n ≠ 0 → (List.enumFrom n l).map f = l.map g := by
  intro l
  induction l with
  | nil => intro n _; rfl
  | cons a l ih =>
      intro n hn
      simp only [List.enumFrom, List.map_cons]
      rw [hfg n a hn, ih (n + 1) (by omega)]

/-- Claim C3 (amended): in the allocation produced by
`_design_test_allocation` for a score-ranked list with at least two entries,
the fixed 30% share (3000 of 10000) goes to the top-ranked variation — the
head of the sorted list — and every other variation receives an equal
70%/(n-1) share; the control therefore keeps the 30% share only when it ranks
first. -/
theorem creative_allocation_head_gets_control_share
    (v : ScoredVariation) (rest : List ScoredVariation) (h : rest ≠ []) :
    (design_test_allocation (v :: rest)).variants =
      (v.name, ({ traffic_percentage := 30, sample_size := 3000 } : AllocEntry)) ::
        rest.map (fun w =>
          (w.name,
           ({ traffic_percentage :=
                py_round1 ((70/100 : ℚ) / (rest.length : ℚ) * 100),
              sample_size :=
                py_int ((10000 : ℚ) * ((70/100 : ℚ) / (rest.length : ℚ))) } :
             AllocEntry))) := by
  have hlen : ((v :: rest).length : ℚ) - 1 = (rest.length : ℚ) := by
    push_cast [List.length_cons]
    ring
  simp only [design_test_allocation, List.enum_cons, List.map_cons, hlen]
  congr 1
  · norm_num [py_round1, round_half_even, py_int]
  · refine enumFrom_map_of_ne_zero _ _ ?_ rest 1 (by omega)
    intro i a hi
    simp [hi]

/-- Witness for claim C3 (amended) at a concrete two-element ranked list. -/
theorem creative_allocation_head_witness :
    (c3w_rest ≠ []) ∧
    (design_test_allocation (c3w_best :: c3w_rest)).variants =
      [("Variation A (Curiosity-driven)",
        ({ traffic_percentage := 30, sample_size := 3000 } : AllocEntry)),
       ("Control (Original)",
        ({ traffic_percentage := 70, sample_size := 7000 } : AllocEntry))] := by
  refine ⟨by simp [c3w_rest], ?_⟩
  have h := creative_allocation_head_gets_control_share c3w_best c3w_rest
    (by simp [c3w_rest])
  rw [h]
  norm_num [c3w_best, c3w_rest, py_round1, round_half_even, py_int]

/-- Counterexample to claim C3 as stated: with score draws that rank the
control last (control draws 0.8/0.85, the strategy variants draw 0.9/0.9),
the control's allocated share is 17.5% (35/2), not the fixed 30%. -/
theorem control_share_depends_on_scores :
    (design_test_allocation (score_variations c3_inputs)).variants.lookup
        "Control (Original)" =
      some ({ traffic_percentage := 35/2, sample_size := 1750 } : AllocEntry) ∧
    (35/2 : ℚ) ≠ 30 := by
  constructor
  · norm_num [c3_inputs, generate_variations, c3_scores, score_variations,
      List.zipWith, List.insertionSort, List.orderedInsert, scored_ge,
      design_test_allocation, List.enum, List.enumFrom, py_round1,
      round_half_even, py_int, List.lookup]
    rfl
  · norm_num

/-! ### Theorems about the abandoned-cart policy -/

/-- Claim C5: every customer record whose cart value is below the fixed
recovery floor 20 yields a skip decision (a normal decision, not an error)
with confidence 0.9 ≥ 0.9, the human-readable skip reasoning, and the
explanatory reason parameter. -/
theorem cart_below_floor_skips (agent_input : CartAgentInput)
    (h : agent_input.customer_data.cart_value.getD 0 < 20) :
    (handle_abandoned_cart agent_input).action = "skip_cart_recovery" ∧
    (9/10 : ℚ) ≤ (handle_abandoned_cart agent_input).confidence ∧
    (handle_abandoned_cart agent_input).reasoning =
      "Cart value below minimum recovery threshold" ∧
    (handle_abandoned_cart agent_input).parameters =
      [("reason", ParamVal.str "Cart value too low")] := by
  have hd : handle_abandoned_cart agent_input =
      create_decision "AbandonedCartWinBackAgent" agent_input.customer_id
        "skip_cart_recovery" [("reason", ParamVal.str "Cart value too low")]
        (9/10) [] false "Cart value below minimum recovery threshold" := by
    unfold handle_abandoned_cart
    rw [if_pos h]
  rw [hd]
  exact ⟨rfl, by norm_num [create_decision], rfl, rfl⟩

/-- Witness for claim C5 at a concrete cart of value 5. -/
theorem cart_below_floor_skips_witness :
    (c5_input.customer_data.cart_value.getD 0 < 20) ∧
    ((handle_abandoned_cart c5_input).action = "skip_cart_recovery" ∧
     (9/10 : ℚ) ≤ (handle_abandoned_cart c5_input).confidence ∧
     (handle_abandoned_cart c5_input).reasoning =
       "Cart value below minimum recovery threshold" ∧
     (handle_abandoned_cart c5_input).parameters =
       [("reason", ParamVal.str "Cart value too low")]) :=
  ⟨by norm_num [c5_input],
   cart_below_floor_skips c5_input (by norm_num [c5_input])⟩

/-- Claim C6: within a fixed VIP tier the discount incentive is monotonically
non-increasing in the cart value. -/
theorem incentive_monotone (v1 v2 : ℚ) (is_vip : Bool) (h : v1 ≤ v2) :
    calculate_incentive v2 is_vip ≤ calculate_incentive v1 is_vip := by
  cases is_vip with
  | false =>
      show (if 500 < v2 then 15 else if 200 < v2 then (20:ℕ) else 25) ≤
        (if 500 < v1 then 15 else if 200 < v1 then 20 else 25)
      split_ifs <;> first | (exfalso; linarith) | norm_num
  | true =>
      show (if 500 < v2 then 10 else if 200 < v2 then (12:ℕ) else 15) ≤
        (if 500 < v1 then 10 else if 200 < v1 then 12 else 15)
      split_ifs <;> first | (exfalso; linarith) | norm_num

/-- Witness for claim C6 at cart values 0 ≤ 1000 in the non-VIP tier. -/
theorem incentive_monotone_witness :
    ((0:ℚ) ≤ 1000) ∧
    calculate_incentive 1000 false ≤ calculate_incentive 0 false :=
  ⟨by norm_num, incentive_monotone 0 1000 false (by norm_num)⟩

/-! ### Theorems about dispatch fan-out -/

/-- Helper: when every requested channel has the payloads its send needs, the
dispatch loop raises nothing and the channels of its results are exactly the
recognized subsequence of the requested channels, in request order. -/
theorem execute_campaign_aux_ok (now : ℕ) (customer_id : String)
    (customer_data : ChannelCustomerData) (campaign_data : CampaignData) :
    ∀ chans : List String,
      dispatch_payloads_present customer_data campaign_data chans = true →
      ∃ results,
        execute_campaign_aux now customer_id customer_data campaign_data chans =
          Except.ok results ∧
        results.map ExecutionResult.channel =
          chans.filter (fun ch => decide (ch ∈ recognized_channels)) := by
  intro chans
  induction chans with
  | nil => exact fun _ => ⟨[], rfl, rfl⟩
  | cons ch rest ih =>
      intro h
      rw [dispatch_payloads_present, List.all_cons, Bool.and_eq_true] at h
      obtain ⟨hch, hrest⟩ := h
      obtain ⟨results, hres, hmap⟩ := ih hrest
      by_cases h1 : ch = "email"
      · subst h1
        rw [channel_send_ok, if_pos rfl] at hch
        obtain ⟨b, hb⟩ := Option.isSome_iff_exists.mp hch
        refine ⟨
          { channel := "email", customer_id := customer_id,
            message_id := "email_" ++ customer_id ++ "_" ++ toString now,
            status := "sent", timestamp := now } :: results, ?_, ?_⟩
        · simp only [execute_campaign_aux]
          rw [if_true, hb, hres]
          rfl
        · rw [List.map_cons, hmap, List.filter_cons, if_pos (by decide)]
      · by_cases h2 : ch = "sms"
        · subst h2
          rw [channel_send_ok, if_neg (by decide), if_pos rfl,
            Bool.and_eq_true] at hch
          obtain ⟨p, hp⟩ := Option.isSome_iff_exists.mp hch.1
          obtain ⟨m, hm⟩ := Option.isSome_iff_exists.mp hch.2
          refine ⟨
            { channel := "sms", customer_id := customer_id,
              message_id := "sms_" ++ customer_id ++ "_" ++ toString now,
              status := "sent", timestamp := now } :: results, ?_, ?_⟩
          · simp only [execute_campaign_aux]
            rw [if_true, hp, hm, hres]
            rfl
          · rw [List.map_cons, hmap, List.filter_cons, if_pos (by decide)]
        · by_cases h3 : ch = "whatsapp"
          · subst h3
            rw [channel_send_ok, if_neg (by decide), if_neg (by decide),
              if_pos rfl] at hch
            cases hc : customer_data.whatsapp_consent.getD false with
            | false =>
                refine ⟨
                  { channel := "whatsapp", customer_id := customer_id,
                    message_id := "", status := "skipped",
                    timestamp := now } :: results, ?_, ?_⟩
                · simp only [execute_campaign_aux]
                  rw [if_true, hc, hres]
                  rfl
                · rw [List.map_cons, hmap, List.filter_cons, if_pos (by decide)]
            | true =>
                rw [hc] at hch
                simp only [Bool.not_true, Bool.false_or,
                  Bool.and_eq_true] at hch
                obtain ⟨p, hp⟩ := Option.isSome_iff_exists.mp hch.1
                obtain ⟨m, hm⟩ := Option.isSome_iff_exists.mp hch.2
                refine ⟨
                  { channel := "whatsapp", customer_id := customer_id,
                    message_id :=
                      "whatsapp_" ++ customer_id ++ "_" ++ toString now,
                    status := "sent", timestamp := now } :: results, ?_, ?_⟩
                · simp only [execute_campaign_aux]
                  rw [if_true, hc, hp, hm, hres]
                  rfl
                · rw [List.map_cons, hmap, List.filter_cons, if_pos (by decide)]
          · by_cases h4 : ch = "web"
            · subst h4
              refine ⟨set_web_personalization now customer_id
                  (campaign_data.web_variations.getD []) :: results, ?_, ?_⟩
              · simp only [execute_campaign_aux]
                rw [if_true, hres]
                rfl
              · rw [List.map_cons, hmap, List.filter_cons, if_pos (by decide)]
                rfl
            · by_cases h5 : ch = "push"
              · subst h5
                refine ⟨send_push now customer_id
                    (campaign_data.push_title.getD "New offer")
                    (campaign_data.push_body.orElse
                      (fun _ => campaign_data.body)) :: results, ?_, ?_⟩
                · simp only [execute_campaign_aux]
                  rw [if_true, hres]
                  rfl
                · rw [List.map_cons, hmap, List.filter_cons, if_pos (by decide)]
                  rfl
              · refine ⟨results, ?_, ?_⟩
                · simp only [execute_campaign_aux]
                  rw [if_neg h1, if_neg h2, if_neg h3, if_neg h4, if_neg h5]
                  exact hres
                · rw [List.filter_cons,
                    if_neg (by simp [recognized_channels, h1, h2, h3, h4, h5])]
                  exact hmap

/-- Claim C7 (amended): provided every requested recognized channel has the
message payloads its send needs — otherwise the source raises a `TypeError`
from `len(None)` while building the send details and the call aborts —
`execute_campaign` succeeds and returns exactly one result per requested
channel whose name is recognized, in request order; a channel name outside the
recognized set is silently skipped, contributing no result and raising no
error. -/
theorem dispatch_one_result_per_recognized (now : ℕ) (customer_id : String)
    (customer_data : ChannelCustomerData) (campaign_data : CampaignData)
    (h : dispatch_payloads_present customer_data campaign_data
        (campaign_data.channels.getD ["email"]) = true) :
    ∃ results,
      execute_campaign now customer_id customer_data campaign_data =
        Except.ok results ∧
      results.map ExecutionResult.channel =
        (campaign_data.channels.getD ["email"]).filter
          (fun ch => decide (ch ∈ recognized_channels)) :=
  execute_campaign_aux_ok now customer_id customer_data campaign_data _ h

/-- Witness for claim C7 (amended) at a concrete six-channel request (the five
recognized names plus the unrecognized "fax") with all needed payloads
present. -/
theorem dispatch_one_result_per_recognized_witness :
    (dispatch_payloads_present c7_customer_ok c7_campaign_ok
        (c7_campaign_ok.channels.getD ["email"]) = true) ∧
    ∃ results,
      execute_campaign 7 "cust_7" c7_customer_ok c7_campaign_ok =
        Except.ok results ∧
      results.map ExecutionResult.channel =
        (c7_campaign_ok.channels.getD ["email"]).filter
          (fun ch => decide (ch ∈ recognized_channels)) :=
  ⟨by decide,
   dispatch_one_result_per_recognized 7 "cust_7" c7_customer_ok c7_campaign_ok
     (by decide)⟩

/-- Counterexample to claim C7 as stated: requesting the recognized channel
"email" against a campaign with no body key makes `send_email` evaluate
`len(None)` while building its details, so the invocation raises a `TypeError`
and aborts with no results instead of returning one result for the recognized
channel. -/
theorem dispatch_missing_payload_counterexample :
    ("email" ∈ recognized_channels) ∧
    execute_campaign 0 "cust_0" c7_customer_bad c7_campaign_bad =
      Except.error "TypeError: object of type \x27NoneType\x27 has no len()" :=
  ⟨by decide, rfl⟩
